import Mathlib

/-
Verification of the incremental query-state engine of the characters-table
component (infinite-scroll variant) and its collaborators, embedded shallowly:
pure parts of the TypeScript source become Lean functions, the reactive parts
become an explicit event-step function on a system-state record.  Timestamps
are milliseconds since the Unix epoch, with the runtime calendar fixed to the
UTC frame that the item timestamps themselves use.
-/

namespace RickMorty

/-- Origin/location record of a character (interface Location in
character.model.ts). -/
structure Location where
  name : String
  url : String
deriving DecidableEq

/-- Remote entity (interface Character in character.model.ts); `created` holds
the creation instant in milliseconds since the Unix epoch (the source stores an
ISO string and compares it through `new Date`, which compares epoch values). -/
structure Character where
  id : Nat
  name : String
  status : String
  species : String
  type : String
  gender : String
  origin : Location
  location : Location
  image : String
  episode : List String
  url : String
  created : Nat
deriving DecidableEq

/-- Pagination metadata of a remote page (interface Info). -/
structure Info where
  count : Nat
  pages : Nat
  next : Option String
  prev : Option String
deriving DecidableEq

/-- A remote page: metadata plus results (interface ApiResponse, instantiated
at Character). -/
structure ApiResponse where
  info : Info
  results : List Character
deriving DecidableEq

/-- Value of the filters reactive form (`filtersForm.value`): empty string on
the text/select fields and `none` on the date fields mean "no constraint". -/
structure FilterState where
  name : String
  status : String
  species : String
  gender : String
  createdStartDate : Option Nat
  createdEndDate : Option Nat
deriving DecidableEq

/-- The canonical empty filter, used at form construction and by clearFilters. -/
def emptyFilters : FilterState :=
  { name := "", status := "", species := "", gender := "",
    createdStartDate := none, createdEndDate := none }

/-- Milliseconds per calendar day. -/
def msPerDay : Nat := 86400000

/-- Effect of `setHours(0, 0, 0, 0)` on a timestamp, in the UTC frame: the
00:00:00.000 instant of the timestamp's calendar day. -/
def startOfDay (t : Nat) : Nat := t / msPerDay * msPerDay

/-- Effect of `setHours(23, 59, 59, 999)` on a timestamp, in the UTC frame: the
23:59:59.999 instant of the timestamp's calendar day. -/
def endOfDay (t : Nat) : Nat := t / msPerDay * msPerDay + (msPerDay - 1)

/-- The per-character predicate inside filterByDateRange: the character's
creation instant is rejected when it is before the normalized start bound or
after the normalized end bound, for whichever bounds are present. -/
def passesDateRange (startDate endDate : Option Nat) (t : Nat) : Bool :=
  (match startDate with
   | none => true
   | some sd => decide (startOfDay sd ≤ t)) &&
  (match endDate with
   | none => true
   | some ed => decide (t ≤ endOfDay ed))

/-- Client-side date-range filter (method filterByDateRange of the component):
when both bounds are absent the input list is returned unchanged, otherwise the
list is filtered by the normalized inclusive-bounds predicate. -/
def filterByDateRange (startDate endDate : Option Nat) (characters : List Character) :
    List Character :=
  if startDate.isNone && endDate.isNone then characters
  else characters.filter (fun c => passesDateRange startDate endDate c.created)

/-- Query parameters sent to the remote service (interface CharacterFilters):
empty-string form fields become absent parameters. -/
structure CharacterFilters where
  name : Option String
  status : Option String
  species : Option String
  gender : Option String
  page : Option Nat
deriving DecidableEq

/-- Truthiness conversion `value || undefined` applied to a string form field. -/
def strOrNone (s : String) : Option String := if s = "" then none else some s

/-- The CharacterFilters record that loadCharacters builds from the current
form value and the requested page. -/
def apiFiltersOf (f : FilterState) (page : Nat) : CharacterFilters :=
  { name := strOrNone f.name, status := strOrNone f.status,
    species := strOrNone f.species, gender := strOrNone f.gender,
    page := some page }

/-- Outcome of the underlying HTTP call before the service's catchError runs. -/
inductive HttpResult where
  | ok (resp : ApiResponse)
  | httpError (message : String)
deriving DecidableEq

/-- The substitute value the service emits when the HTTP call fails. -/
def emptyResponse : ApiResponse :=
  { info := { count := 0, pages := 0, next := none, prev := none }, results := [] }

/-- Emission behaviour of RickMortyApiService.getCharacters: the catchError
operator converts any HTTP failure into a normal emission of `emptyResponse`,
so the returned stream never delivers an error to its subscriber
(`Except.error` is never produced). -/
def getCharacters (raw : HttpResult) : Except String ApiResponse :=
  match raw with
  | .ok resp => .ok resp
  | .httpError _ => .ok emptyResponse

/-- Query parameters passed to the router navigation: a missing field is a
parameter that the navigation call omits.  The record has a `page` slot so that
its absence from every persisted value is statable; the source never writes it. -/
structure UrlParams where
  name : Option String
  status : Option String
  species : Option String
  gender : Option String
  createdStartDate : Option Nat
  createdEndDate : Option Nat
  page : Option Nat
deriving DecidableEq

/-- The empty queryParams object passed by clearFilters' navigation. -/
def emptyUrlParams : UrlParams :=
  { name := none, status := none, species := none, gender := none,
    createdStartDate := none, createdEndDate := none, page := none }

/-- Pure part of updateUrlParams: the queryParams object built from the current
filters.  Only truthy fields are added; the date fields are truncated to their
calendar day (`toISOString().split('T')[0]`, modelled as the day number). -/
def updateUrlParams (f : FilterState) : UrlParams :=
  { name := strOrNone f.name, status := strOrNone f.status,
    species := strOrNone f.species, gender := strOrNone f.gender,
    createdStartDate := f.createdStartDate.map (fun t => t / msPerDay),
    createdEndDate := f.createdEndDate.map (fun t => t / msPerDay),
    page := none }

/-- The component's reactive state: the signals plus the private
`isLoadingPage` flag and the current form value. -/
structure EngineState where
  characters : List Character
  loading : Bool
  loadingMore : Bool
  totalCount : Nat
  totalPages : Nat
  currentPage : Nat
  hasMore : Bool
  isLoadingPage : Bool
  filtersForm : FilterState
deriving DecidableEq

/-- An outstanding subscription created by loadCharacters: the request it sent
and the `page`/`append` values its completion handlers close over. -/
structure PendingFetch where
  request : CharacterFilters
  page : Nat
  append : Bool
deriving DecidableEq

/-- Whole-system state: the engine, the at-most-one outstanding fetch (the
`isLoadingPage` guard admits no second one), the last value that passed
distinctUntilChanged on the debounced form stream, and observation logs of the
issued requests, router navigations and error reports. -/
structure SysState where
  engine : EngineState
  pending : Option PendingFetch
  lastSettled : Option FilterState
  fetchLog : List CharacterFilters
  persistLog : List UrlParams
  errorLog : Nat
deriving DecidableEq

/-- Success handler of the loadCharacters subscription: date-filter the raw
results with the form's current date bounds, append or replace `characters`,
replace the page metadata wholesale, set `hasMore = page < totalPages`, and
clear every loading flag. -/
def onFetchSuccess (e : EngineState) (page : Nat) (append : Bool)
    (resp : ApiResponse) : EngineState :=
  let filteredCharacters :=
    filterByDateRange e.filtersForm.createdStartDate e.filtersForm.createdEndDate
      resp.results
  { e with
    characters := if append then e.characters ++ filteredCharacters
                  else filteredCharacters
    totalCount := resp.info.count
    totalPages := resp.info.pages
    currentPage := page
    hasMore := decide (page < resp.info.pages)
    loading := false
    loadingMore := false
    isLoadingPage := false }

/-- Error handler of the loadCharacters subscription: clear `characters` only
on a first-page load, clear every loading flag, and set `hasMore` to false. -/
def onFetchError (e : EngineState) (append : Bool) : EngineState :=
  { e with
    characters := if append then e.characters else []
    loading := false
    loadingMore := false
    isLoadingPage := false
    hasMore := false }

/-- Method loadCharacters(page, append): an immediate return when a load is
already outstanding; otherwise mark the load in progress, raise the loading
flag matching `page == 1`, and issue the request built from the current form. -/
def loadCharacters (s : SysState) (page : Nat) (append : Bool) : SysState :=
  if s.engine.isLoadingPage then s
  else
    let request := apiFiltersOf s.engine.filtersForm page
    { s with
      engine := { s.engine with
        isLoadingPage := true
        loading := if page = 1 then true else s.engine.loading
        loadingMore := if page = 1 then s.engine.loadingMore else true }
      pending := some { request := request, page := page, append := append }
      fetchLog := s.fetchLog ++ [request] }

/-- Subscriber of setupFiltersObserver at the moment the 300 ms debounce timer
fires: distinctUntilChanged drops the emission when it equals the previous one;
otherwise reset the page to 1, clear the list, set `hasMore`, navigate with the
current filters, and call loadCharacters(1). -/
def onFiltersSettled (s : SysState) : SysState :=
  if s.lastSettled = some s.engine.filtersForm then s
  else
    let s1 := { s with
      engine := { s.engine with
        currentPage := 1
        characters := []
        hasMore := true }
      lastSettled := some s.engine.filtersForm
      persistLog := s.persistLog ++ [updateUrlParams s.engine.filtersForm] }
    loadCharacters s1 1 false

/-- Method loadNextPage: inert when `hasMore` is false or a load is
outstanding; otherwise request the next page with append semantics. -/
def loadNextPage (s : SysState) : SysState :=
  if !s.engine.hasMore || s.engine.isLoadingPage then s
  else loadCharacters s (s.engine.currentPage + 1) true

/-- Method clearFilters: reset the form to the canonical empty value and
navigate with an empty queryParams object.  Nothing else is touched here; any
reload happens later through the debounced filters observer. -/
def clearFilters (s : SysState) : SysState :=
  { s with
    engine := { s.engine with filtersForm := emptyFilters }
    persistLog := s.persistLog ++ [emptyUrlParams] }

/-- Discrete events driving the component. -/
inductive Event where
  | initialLoad (f : FilterState)
  | filterEdit (f : FilterState)
  | filterSettle
  | scrollIntersect
  | fetchSuccess (resp : ApiResponse)
  | fetchFailure
  | clearAll
deriving DecidableEq

/-- One event step.  `initialLoad f` is loadInitialData: patch the form from
the parsed query parameters without emitting and load page 1.  `filterEdit` is
a raw form edit (pre-debounce), `filterSettle` the debounce timer firing,
`scrollIntersect` the IntersectionObserver trigger, the two fetch events the
completion of the outstanding subscription, and `clearAll` the clearFilters
button. -/
def step (s : SysState) : Event → SysState
  | .initialLoad f =>
      loadCharacters { s with engine := { s.engine with filtersForm := f } } 1 false
  | .filterEdit f => { s with engine := { s.engine with filtersForm := f } }
  | .filterSettle => onFiltersSettled s
  | .scrollIntersect => loadNextPage s
  | .fetchSuccess resp =>
      match s.pending with
      | none => s
      | some pf =>
          { s with
            engine := onFetchSuccess s.engine pf.page pf.append resp
            pending := none }
  | .fetchFailure =>
      match s.pending with
      | none => s
      | some pf =>
          { s with
            engine := onFetchError s.engine pf.append
            pending := none
            errorLog := s.errorLog + 1 }
  | .clearAll => clearFilters s

/-- Run a sequence of events. -/
def run (s : SysState) (events : List Event) : SysState := events.foldl step s

/-- Signal initializers of the component: empty list, no loads in progress,
zero totals, page 1, and `hasMore` initialized to true. -/
def initEngine : EngineState :=
  { characters := [], loading := false, loadingMore := false,
    totalCount := 0, totalPages := 0, currentPage := 1,
    hasMore := true, isLoadingPage := false, filtersForm := emptyFilters }

/-- System state at construction time. -/
def initSys : SysState :=
  { engine := initEngine, pending := none, lastSettled := none,
    fetchLog := [], persistLog := [], errorLog := 0 }

/-- debounceTime(w) over a stream of timestamped form values: a value arriving
at time t is emitted at t + w unless the next value arrives strictly earlier
than that. -/
def debounceEmits (w : Nat) : List (Nat × FilterState) → List (Nat × FilterState)
  | [] => []
  | [(t, v)] => [(t + w, v)]
  | (t, v) :: (t2, v2) :: rest =>
      if t2 < t + w then debounceEmits w ((t2, v2) :: rest)
      else (t + w, v) :: debounceEmits w ((t2, v2) :: rest)

/-- All edits of the list fall inside one debounce window: each edit arrives
strictly before the previous edit's timer would fire. -/
def withinWindow (w : Nat) : List (Nat × FilterState) → Bool
  | [] => true
  | [_] => true
  | (t, _) :: (t2, v2) :: rest =>
      decide (t2 < t + w) && withinWindow w ((t2, v2) :: rest)

/-- Last element of an edit burst. -/
def lastEdit : List (Nat × FilterState) → Option (Nat × FilterState)
  | [] => none
  | [x] => some x
  | _ :: y :: rest => lastEdit (y :: rest)

/-- A start bound `b` is at least as tight as `a`: an absent `a` constrains
nothing, and present bounds tighten by raising the start. -/
def startNarrows : Option Nat → Option Nat → Bool
  | none, _ => true
  | some _, none => false
  | some a, some b => decide (a ≤ b)

/-- An end bound `b` is at least as tight as `a`: an absent `a` constrains
nothing, and present bounds tighten by lowering the end. -/
def endNarrows : Option Nat → Option Nat → Bool
  | none, _ => true
  | some _, none => false
  | some a, some b => decide (b ≤ a)

/-- Creation instant of the first character of the catalog,
2017-11-04T18:48:46.250Z. -/
def rickCreatedMs : Nat := 1509821326250

/-- Concrete character used in scenarios. -/
def rickCharacter : Character :=
  { id := 1, name := "Rick Sanchez", status := "Alive", species := "Human",
    type := "", gender := "Male",
    origin := { name := "Earth (C-137)", url := "" },
    location := { name := "Citadel of Ricks", url := "" },
    image := "", episode := [], url := "", created := rickCreatedMs }

/-- Concrete second character used in append scenarios. -/
def mortyCharacter : Character :=
  { id := 2, name := "Morty Smith", status := "Alive", species := "Human",
    type := "", gender := "Male",
    origin := { name := "unknown", url := "" },
    location := { name := "Citadel of Ricks", url := "" },
    image := "", episode := [], url := "", created := rickCreatedMs }

/-- Concrete page-1 response with many further pages. -/
def rickResponse : ApiResponse :=
  { info := { count := 826, pages := 42, next := some "2", prev := none },
    results := [rickCharacter] }

/-- Concrete page-2 response. -/
def page2Response : ApiResponse :=
  { info := { count := 826, pages := 42, next := some "3", prev := some "1" },
    results := [mortyCharacter] }

/-- Concrete single-page response. -/
def onePageResponse : ApiResponse :=
  { info := { count := 1, pages := 1, next := none, prev := none },
    results := [rickCharacter] }

/-- Concrete filter typing "Rick". -/
def rickFilter : FilterState :=
  { name := "Rick", status := "", species := "", gender := "",
    createdStartDate := none, createdEndDate := none }

/-- Concrete filter typing "Morty". -/
def mortyFilter : FilterState :=
  { name := "Morty", status := "", species := "", gender := "",
    createdStartDate := none, createdEndDate := none }

/-- 2017-11-01T00:00:00Z. -/
def nov1Ms : Nat := 1509494400000

/-- 2017-11-04T00:00:00Z. -/
def nov4Ms : Nat := 1509753600000

/-- The date filter maps the empty list to the empty list whatever the bounds. -/
theorem filterByDateRange_nil (sd ed : Option Nat) : filterByDateRange sd ed [] = [] := by
  cases h : (sd.isNone && ed.isNone) <;> simp [filterByDateRange, h]

/-- Day-start normalization is monotone in the timestamp. -/
theorem startOfDay_mono {a b : Nat} (h : a ≤ b) : startOfDay a ≤ startOfDay b :=
  Nat.mul_le_mul_right msPerDay (Nat.div_le_div_right h)

/-- Day-end normalization is monotone in the timestamp. -/
theorem endOfDay_mono {a b : Nat} (h : a ≤ b) : endOfDay a ≤ endOfDay b :=
  Nat.add_le_add_right (startOfDay_mono h) (msPerDay - 1)

/-- Tightening both bounds strengthens the per-character predicate. -/
theorem passesDateRange_mono {sd ed sd2 ed2 : Option Nat}
    (hs : startNarrows sd sd2 = true) (he : endNarrows ed ed2 = true) (t : Nat)
    (h : passesDateRange sd2 ed2 t = true) : passesDateRange sd ed t = true := by
  simp only [passesDateRange, Bool.and_eq_true] at h ⊢
  obtain ⟨h1, h2⟩ := h
  constructor
  · cases sd with
    | none => rfl
    | some a =>
      cases sd2 with
      | none => simp [startNarrows] at hs
      | some b =>
        simp only [startNarrows, decide_eq_true_eq] at hs h1 ⊢
        exact le_trans (startOfDay_mono hs) h1
  · cases ed with
    | none => rfl
    | some a =>
      cases ed2 with
      | none => simp [endNarrows] at he
      | some b =>
        simp only [endNarrows, decide_eq_true_eq] at he h2 ⊢
        exact le_trans h2 (endOfDay_mono he)

/-- C9: filterByDateRange normalizes a present start bound to 00:00:00.000 and
a present end bound to 23:59:59.999 of their calendar days, in the same (UTC)
time frame as the item timestamps, and keeps exactly the characters whose
creation instant lies within the normalized bounds inclusively on whichever
bounds are present; in particular a character created 2017-11-04T18:48:46.250Z
passes the range [2017-11-01, 2017-11-04]. -/
theorem c9_date_range_normalized_inclusive :
    (∀ t : Nat, startOfDay t % msPerDay = 0 ∧ startOfDay t ≤ t ∧
      t < startOfDay t + msPerDay ∧ endOfDay t = startOfDay t + (msPerDay - 1)) ∧
    (∀ (sd ed : Option Nat) (cs : List Character) (c : Character),
      c ∈ filterByDateRange sd ed cs ↔
        c ∈ cs ∧ (∀ a ∈ sd, startOfDay a ≤ c.created) ∧
          (∀ b ∈ ed, c.created ≤ endOfDay b)) ∧
    filterByDateRange (some nov1Ms) (some nov4Ms) [rickCharacter] = [rickCharacter] := by
  refine ⟨?_, ?_, by decide⟩
  · intro t
    unfold startOfDay endOfDay msPerDay
    omega
  · intro sd ed cs c
    cases sd <;> cases ed <;>
      simp [filterByDateRange, passesDateRange, List.mem_filter]

/-- C10: the date-range filter is a pure function of its inputs; with both
bounds absent it is the identity, and narrowing the bounds (raising the start
or lowering the end, including turning an absent bound into a present one)
never increases the size of the result. -/
theorem c10_date_filter_identity_and_monotone (sd ed sd2 ed2 : Option Nat)
    (cs : List Character)
    (hs : startNarrows sd sd2 = true) (he : endNarrows ed ed2 = true) :
    filterByDateRange none none cs = cs ∧
    (filterByDateRange sd2 ed2 cs).length ≤ (filterByDateRange sd ed cs).length := by
  refine ⟨by simp [filterByDateRange], ?_⟩
  by_cases h2 : (sd2.isNone && ed2.isNone) = true
  · have hsd2 : sd2 = none := by
      cases sd2 <;> simp_all
    have hed2 : ed2 = none := by
      cases ed2 <;> simp_all
    have hsd : sd = none := by
      cases sd <;> simp_all [startNarrows]
    have hed : ed = none := by
      cases ed <;> simp_all [endNarrows]
    subst hsd2; subst hed2; subst hsd; subst hed
    exact le_refl _
  · rw [filterByDateRange, if_neg h2]
    by_cases h1 : (sd.isNone && ed.isNone) = true
    · rw [filterByDateRange, if_pos h1]
      exact List.length_filter_le _ _
    · rw [filterByDateRange, if_neg h1]
      exact (List.monotone_filter_right cs
        (fun c => passesDateRange_mono hs he c.created)).length_le

/-- Concrete instance of C10's hypotheses and conclusion: both bounds present
and tightened on both sides. -/
theorem c10_witness :
    startNarrows (some nov1Ms) (some nov4Ms) = true ∧
    endNarrows (some nov4Ms) (some nov1Ms) = true ∧
    (filterByDateRange none none [rickCharacter] = [rickCharacter] ∧
      (filterByDateRange (some nov4Ms) (some nov1Ms) [rickCharacter]).length ≤
        (filterByDateRange (some nov1Ms) (some nov4Ms) [rickCharacter]).length) :=
  ⟨by decide, by decide,
    c10_date_filter_identity_and_monotone (some nov1Ms) (some nov4Ms)
      (some nov4Ms) (some nov1Ms) [rickCharacter] (by decide) (by decide)⟩

/-- C3: getCharacters converts every HTTP failure into a normal emission of the
empty response, so the subscriber's error callback is unreachable through this
client, and feeding that substitute response through the success handler leaves
appended items untouched (or replaces a first page with the empty list), zeroes
both totals, and makes hasMore false. -/
theorem c3_http_failure_masked_as_empty_success :
    (∀ raw : HttpResult, ∃ resp, getCharacters raw = Except.ok resp) ∧
    (∀ msg : String, getCharacters (HttpResult.httpError msg) = Except.ok emptyResponse) ∧
    (∀ (e : EngineState) (page : Nat) (ap : Bool),
      (onFetchSuccess e page ap emptyResponse).hasMore = false ∧
      (onFetchSuccess e page ap emptyResponse).characters =
        (if ap then e.characters else []) ∧
      (onFetchSuccess e page ap emptyResponse).totalCount = 0 ∧
      (onFetchSuccess e page ap emptyResponse).totalPages = 0) := by
  refine ⟨?_, fun _ => rfl, ?_⟩
  · intro raw
    cases raw with
    | ok resp => exact ⟨resp, rfl⟩
    | httpError _ => exact ⟨emptyResponse, rfl⟩
  · intro e page ap
    refine ⟨by simp [onFetchSuccess, emptyResponse], ?_, rfl, rfl⟩
    cases ap <;> simp [onFetchSuccess, emptyResponse, filterByDateRange_nil]

/-- C6: on a successful append fetch the filtered page is concatenated after
the existing items (prior items preserved as a prefix in order, growth exactly
the filtered length, no deduplication); on a non-append fetch the list is
replaced wholesale by the filtered page. -/
theorem c6_success_append_or_replace (e : EngineState) (page : Nat)
    (resp : ApiResponse) :
    (onFetchSuccess e page true resp).characters =
      e.characters ++ filterByDateRange e.filtersForm.createdStartDate
        e.filtersForm.createdEndDate resp.results ∧
    (onFetchSuccess e page true resp).characters.length =
      e.characters.length + (filterByDateRange e.filtersForm.createdStartDate
        e.filtersForm.createdEndDate resp.results).length ∧
    (onFetchSuccess e page true resp).characters.take e.characters.length =
      e.characters ∧
    (onFetchSuccess e page false resp).characters =
      filterByDateRange e.filtersForm.createdStartDate e.filtersForm.createdEndDate
        resp.results := by
  refine ⟨rfl, by simp [onFetchSuccess], ?_, rfl⟩
  simp only [onFetchSuccess, if_true]
  exact List.take_left _ _

/-- C2: when the outstanding fetch fails, items are cleared exactly when the
fetch was a first-page load and preserved verbatim on a page-advance, hasMore
and both loading flags become false, the pending subscription is dropped, and
the error sink is invoked exactly once (the handler returns normally, throwing
nothing at the consumer). -/
theorem c2_failure_handling (s : SysState) (pf : PendingFetch)
    (hpend : s.pending = some pf) :
    (step s Event.fetchFailure).engine.characters =
      (if pf.append then s.engine.characters else []) ∧
    (step s Event.fetchFailure).engine.hasMore = false ∧
    (step s Event.fetchFailure).engine.loading = false ∧
    (step s Event.fetchFailure).engine.loadingMore = false ∧
    (step s Event.fetchFailure).engine.isLoadingPage = false ∧
    (step s Event.fetchFailure).errorLog = s.errorLog + 1 ∧
    (step s Event.fetchFailure).pending = none := by
  simp [step, hpend, onFetchError]

/-- Scenario B state: page 1 already loaded (42 pages), a page-2 append fetch
outstanding. -/
def scenarioBPending : PendingFetch :=
  { request := apiFiltersOf emptyFilters 2, page := 2, append := true }

/-- Scenario B engine signals: page 1 loaded out of 42, append load running. -/
def scenarioBEngine : EngineState :=
  { characters := [rickCharacter], loading := false, loadingMore := true,
    totalCount := 826, totalPages := 42, currentPage := 1, hasMore := true,
    isLoadingPage := true, filtersForm := emptyFilters }

/-- Scenario B system state with the page-2 append fetch in flight. -/
def scenarioBState : SysState :=
  { engine := scenarioBEngine,
    pending := some scenarioBPending, lastSettled := some emptyFilters,
    fetchLog := [], persistLog := [], errorLog := 0 }

/-- Concrete instance of C2 at Scenario B: the append failure preserves the
page-1 items, reports once, and lowers every flag. -/
theorem c2_witness :
    scenarioBState.pending = some scenarioBPending ∧
    ((step scenarioBState Event.fetchFailure).engine.characters =
        (if scenarioBPending.append then scenarioBState.engine.characters else []) ∧
      (step scenarioBState Event.fetchFailure).engine.hasMore = false ∧
      (step scenarioBState Event.fetchFailure).engine.loading = false ∧
      (step scenarioBState Event.fetchFailure).engine.loadingMore = false ∧
      (step scenarioBState Event.fetchFailure).engine.isLoadingPage = false ∧
      (step scenarioBState Event.fetchFailure).errorLog = scenarioBState.errorLog + 1 ∧
      (step scenarioBState Event.fetchFailure).pending = none) :=
  ⟨rfl, c2_failure_handling scenarioBState scenarioBPending rfl⟩

/-- Event trace for C1: a first-page fetch for the "Rick" filter goes out, then
the filter settles to "Morty" while that fetch is still in flight; the in-flight
guard swallows the new first-page load. -/
def c1Trace : List Event :=
  [Event.filterEdit rickFilter, Event.filterSettle,
   Event.filterEdit mortyFilter, Event.filterSettle]

/-- The fetch outstanding at the end of c1Trace, issued under the superseded
"Rick" filter. -/
def c1Pending : PendingFetch :=
  { request := apiFiltersOf rickFilter 1, page := 1, append := false }

/-- C1 counterexample: after the filter settles to "Morty" while the "Rick"
fetch is in flight, no fetch for "Morty" is ever issued (the log still holds
only the "Rick" request), and the completion of the superseded "Rick" fetch
does mutate items, totalCount and totalPages with the stale response. -/
theorem c1_counterexample :
    (run initSys c1Trace).engine.filtersForm = mortyFilter ∧
    (run initSys c1Trace).pending = some c1Pending ∧
    (run initSys c1Trace).fetchLog = [apiFiltersOf rickFilter 1] ∧
    (run initSys c1Trace).engine.characters = [] ∧
    (run initSys c1Trace).engine.totalCount = 0 ∧
    (run initSys c1Trace).engine.totalPages = 0 ∧
    (run (run initSys c1Trace) [Event.fetchSuccess rickResponse]).engine.characters =
      [rickCharacter] ∧
    (run (run initSys c1Trace) [Event.fetchSuccess rickResponse]).engine.totalCount =
      826 ∧
    (run (run initSys c1Trace) [Event.fetchSuccess rickResponse]).engine.totalPages =
      42 := by
  decide

/-- C1 amended: the code has no generation tag; while a fetch is outstanding a
settling filter change issues no new fetch and leaves the outstanding fetch in
place, and that fetch's completion overwrites items (on a first-page fetch),
totalCount and totalPages with the stale response's data. -/
theorem c1_amended_stale_fetch_mutates (s : SysState) (pf : PendingFetch)
    (resp : ApiResponse) (hload : s.engine.isLoadingPage = true)
    (hpend : s.pending = some pf) (hap : pf.append = false) :
    (step s Event.filterSettle).fetchLog = s.fetchLog ∧
    (step s Event.filterSettle).pending = s.pending ∧
    (step (step s Event.filterSettle) (Event.fetchSuccess resp)).engine.characters =
      filterByDateRange s.engine.filtersForm.createdStartDate
        s.engine.filtersForm.createdEndDate resp.results ∧
    (step (step s Event.filterSettle) (Event.fetchSuccess resp)).engine.totalCount =
      resp.info.count ∧
    (step (step s Event.filterSettle) (Event.fetchSuccess resp)).engine.totalPages =
      resp.info.pages := by
  by_cases hd : s.lastSettled = some s.engine.filtersForm <;>
    simp [step, onFiltersSettled, hd, loadCharacters, hload, hpend, onFetchSuccess, hap]

/-- Concrete instance of C1's amended statement at the c1Trace state. -/
theorem c1_amended_witness :
    (run initSys c1Trace).engine.isLoadingPage = true ∧
    (run initSys c1Trace).pending = some c1Pending ∧
    c1Pending.append = false ∧
    ((step (run initSys c1Trace) Event.filterSettle).fetchLog =
        (run initSys c1Trace).fetchLog ∧
      (step (run initSys c1Trace) Event.filterSettle).pending =
        (run initSys c1Trace).pending ∧
      (step (step (run initSys c1Trace) Event.filterSettle)
          (Event.fetchSuccess rickResponse)).engine.characters =
        filterByDateRange (run initSys c1Trace).engine.filtersForm.createdStartDate
          (run initSys c1Trace).engine.filtersForm.createdEndDate
          rickResponse.results ∧
      (step (step (run initSys c1Trace) Event.filterSettle)
          (Event.fetchSuccess rickResponse)).engine.totalCount =
        rickResponse.info.count ∧
      (step (step (run initSys c1Trace) Event.filterSettle)
          (Event.fetchSuccess rickResponse)).engine.totalPages =
        rickResponse.info.pages) :=
  ⟨by decide, by decide, by decide,
    c1_amended_stale_fetch_mutates (run initSys c1Trace) c1Pending rickResponse
      (by decide) (by decide) (by decide)⟩

/-- C4 amended: clearFilters only resets the form to the canonical empty value
and navigates with an empty queryParams object; it does not clear items, reset
the page, or touch hasMore, and it issues no fetch itself — the reload happens
later through the same debounced filters observer as any ordinary edit. -/
theorem c4_amended_clear_only_form_and_url (s : SysState) :
    (step s Event.clearAll).engine.filtersForm = emptyFilters ∧
    (step s Event.clearAll).engine.characters = s.engine.characters ∧
    (step s Event.clearAll).engine.currentPage = s.engine.currentPage ∧
    (step s Event.clearAll).engine.hasMore = s.engine.hasMore ∧
    (step s Event.clearAll).engine.loading = s.engine.loading ∧
    (step s Event.clearAll).fetchLog = s.fetchLog ∧
    (step s Event.clearAll).pending = s.pending ∧
    (step s Event.clearAll).persistLog = s.persistLog ++ [emptyUrlParams] :=
  ⟨rfl, rfl, rfl, rfl, rfl, rfl, rfl, rfl⟩

/-- State with two pages accumulated and page 2 current, reached by an initial
"Rick" load and one infinite-scroll advance. -/
def c4Start : SysState :=
  run initSys [Event.initialLoad rickFilter, Event.fetchSuccess rickResponse,
    Event.scrollIntersect, Event.fetchSuccess page2Response]

/-- C4 counterexample: invoking clearFilters from a two-page state resets the
form but leaves the accumulated items in place, leaves the page at 2, and
issues no fetch at all (neither immediately nor by the step itself). -/
theorem c4_counterexample :
    (step c4Start Event.clearAll).engine.filtersForm = emptyFilters ∧
    (step c4Start Event.clearAll).engine.characters =
      [rickCharacter, mortyCharacter] ∧
    (step c4Start Event.clearAll).engine.characters ≠ [] ∧
    (step c4Start Event.clearAll).engine.currentPage = 2 ∧
    (step c4Start Event.clearAll).engine.currentPage ≠ 1 ∧
    (step c4Start Event.clearAll).fetchLog = c4Start.fetchLog ∧
    (step c4Start Event.clearAll).pending = none := by
  decide

/-- A burst of edits all inside one debounce window collapses to a single
emission carrying the last value, timed one window after the last edit. -/
theorem debounceEmits_burst (w : Nat) :
    ∀ (edits : List (Nat × FilterState)) (t : Nat) (v : FilterState),
      withinWindow w edits = true → lastEdit edits = some (t, v) →
      debounceEmits w edits = [(t + w, v)] := by
  intro edits
  induction edits with
  | nil => intro t v _ hl; simp [lastEdit] at hl
  | cons x rest ih =>
    intro t v hw hl
    cases rest with
    | nil =>
      obtain ⟨tx, vx⟩ := x
      simp only [lastEdit, Option.some.injEq, Prod.mk.injEq] at hl
      simp [debounceEmits, hl.1, hl.2]
    | cons y rest2 =>
      obtain ⟨tx, vx⟩ := x
      obtain ⟨ty, vy⟩ := y
      simp only [withinWindow, Bool.and_eq_true, decide_eq_true_eq] at hw
      simp only [lastEdit] at hl
      simp only [debounceEmits, if_pos hw.1]
      exact ih t v hw.2 hl

/-- C5 amended: a burst of edits inside one debounce window resolves to exactly
one debounced emission carrying the last value; if the engine is idle when it
settles and the value differs from the last settled one, exactly one fetch is
issued and it carries that value; a settle whose value equals the previous
settled one changes nothing at all.  (When a fetch is still in flight at settle
time the in-flight guard suppresses the new fetch; see the counterexample.) -/
theorem c5_amended_debounce_coalesces (w : Nat) (edits : List (Nat × FilterState))
    (t : Nat) (v : FilterState) (s s2 : SysState)
    (hw : withinWindow w edits = true) (hl : lastEdit edits = some (t, v))
    (hform : s.engine.filtersForm = v) (hidle : s.engine.isLoadingPage = false)
    (hdist : s.lastSettled ≠ some v)
    (heq : s2.lastSettled = some s2.engine.filtersForm) :
    debounceEmits w edits = [(t + w, v)] ∧
    (step s Event.filterSettle).fetchLog = s.fetchLog ++ [apiFiltersOf v 1] ∧
    (step s Event.filterSettle).pending =
      some { request := apiFiltersOf v 1, page := 1, append := false } ∧
    step s2 Event.filterSettle = s2 := by
  have hd2 : ¬s.lastSettled = some s.engine.filtersForm := by
    rw [hform]; exact hdist
  refine ⟨debounceEmits_burst w edits t v hw hl, ?_, ?_, ?_⟩
  · simp [step, onFiltersSettled, hd2, loadCharacters, hidle, hform, hdist]
  · simp [step, onFiltersSettled, hd2, loadCharacters, hidle, hform, hdist]
  · simp [step, onFiltersSettled, heq]

/-- Idle system state whose form holds the "Rick" filter, not yet settled. -/
def c5State : SysState :=
  { engine := { initEngine with filtersForm := rickFilter }, pending := none,
    lastSettled := none, fetchLog := [], persistLog := [], errorLog := 0 }

/-- System state whose form value equals the last settled value. -/
def c5StateEq : SysState :=
  { engine := initEngine, pending := none, lastSettled := some emptyFilters,
    fetchLog := [], persistLog := [], errorLog := 0 }

/-- Concrete instance of C5's amended statement: a two-edit burst 100 ms apart
under a 300 ms window, an idle engine holding the last value, and an
equal-value re-settle. -/
theorem c5_amended_witness :
    withinWindow 300 [(0, emptyFilters), (100, rickFilter)] = true ∧
    lastEdit [(0, emptyFilters), (100, rickFilter)] = some (100, rickFilter) ∧
    c5State.engine.filtersForm = rickFilter ∧
    c5State.engine.isLoadingPage = false ∧
    c5State.lastSettled ≠ some rickFilter ∧
    c5StateEq.lastSettled = some c5StateEq.engine.filtersForm ∧
    (debounceEmits 300 [(0, emptyFilters), (100, rickFilter)] =
        [(100 + 300, rickFilter)] ∧
      (step c5State Event.filterSettle).fetchLog =
        c5State.fetchLog ++ [apiFiltersOf rickFilter 1] ∧
      (step c5State Event.filterSettle).pending =
        some { request := apiFiltersOf rickFilter 1, page := 1, append := false } ∧
      step c5StateEq Event.filterSettle = c5StateEq) :=
  ⟨by decide, by decide, by decide, by decide, by decide, by decide,
    c5_amended_debounce_coalesces 300 [(0, emptyFilters), (100, rickFilter)]
      100 rickFilter c5State c5StateEq (by decide) (by decide) (by decide)
      (by decide) (by decide) (by decide)⟩

/-- Event trace for the C5 counterexample: the initial page-1 load is still in
flight when an edit burst settles. -/
def c5Trace : List Event :=
  [Event.initialLoad emptyFilters, Event.filterEdit rickFilter, Event.filterSettle,
   Event.fetchSuccess rickResponse]

/-- C5 counterexample: the burst that settles to the "Rick" filter while the
initial fetch is in flight produces zero fetches carrying that value — the only
request ever issued is the initial one, and nothing remains outstanding that
could still issue it. -/
theorem c5_counterexample :
    (run initSys c5Trace).fetchLog = [apiFiltersOf emptyFilters 1] ∧
    (run initSys c5Trace).pending = none ∧
    apiFiltersOf rickFilter 1 ∉ (run initSys c5Trace).fetchLog := by
  decide

/-- Event trace for the C7 counterexample: a single-page catalog loads fully,
then a filter edit settles. -/
def c7Trace : List Event :=
  [Event.initialLoad emptyFilters, Event.fetchSuccess onePageResponse,
   Event.filterEdit rickFilter, Event.filterSettle]

/-- C7 counterexample: in the reachable state right after a filter change
settles, hasMore has been forced to true while totalPages (still 1 from the
previous response) does not exceed the current page — so "hasMore is false
whenever page ≥ totalPages" fails in a reachable state. -/
theorem c7_counterexample :
    (run initSys c7Trace).engine.hasMore = true ∧
    (run initSys c7Trace).engine.totalPages = 1 ∧
    (run initSys c7Trace).engine.currentPage = 1 ∧
    (run initSys c7Trace).engine.totalPages ≤ (run initSys c7Trace).engine.currentPage := by
  decide

/-- C7 amended: the invariant holds at fetch completions — every successful
completion replaces totalCount and totalPages wholesale (also on append), sets
the page to the fetched page and hasMore to exactly "page < totalPages", and
every failed completion forces hasMore to false. -/
theorem c7_amended_completion_invariant (s : SysState) (pf : PendingFetch)
    (resp : ApiResponse) (hpend : s.pending = some pf) :
    (step s (Event.fetchSuccess resp)).engine.totalCount = resp.info.count ∧
    (step s (Event.fetchSuccess resp)).engine.totalPages = resp.info.pages ∧
    (step s (Event.fetchSuccess resp)).engine.currentPage = pf.page ∧
    (step s (Event.fetchSuccess resp)).engine.hasMore =
      decide ((step s (Event.fetchSuccess resp)).engine.currentPage <
        (step s (Event.fetchSuccess resp)).engine.totalPages) ∧
    (step s Event.fetchFailure).engine.hasMore = false := by
  simp [step, hpend, onFetchSuccess, onFetchError]

/-- The fetch outstanding right after the initial load is issued. -/
def c7Pending : PendingFetch :=
  { request := apiFiltersOf emptyFilters 1, page := 1, append := false }

/-- Concrete instance of C7's amended statement at the freshly issued initial
load completing with the single-page response. -/
theorem c7_amended_witness :
    (run initSys [Event.initialLoad emptyFilters]).pending = some c7Pending ∧
    ((step (run initSys [Event.initialLoad emptyFilters])
        (Event.fetchSuccess onePageResponse)).engine.totalCount =
        onePageResponse.info.count ∧
      (step (run initSys [Event.initialLoad emptyFilters])
          (Event.fetchSuccess onePageResponse)).engine.totalPages =
        onePageResponse.info.pages ∧
      (step (run initSys [Event.initialLoad emptyFilters])
          (Event.fetchSuccess onePageResponse)).engine.currentPage = c7Pending.page ∧
      (step (run initSys [Event.initialLoad emptyFilters])
          (Event.fetchSuccess onePageResponse)).engine.hasMore =
        decide ((step (run initSys [Event.initialLoad emptyFilters])
            (Event.fetchSuccess onePageResponse)).engine.currentPage <
          (step (run initSys [Event.initialLoad emptyFilters])
              (Event.fetchSuccess onePageResponse)).engine.totalPages) ∧
      (step (run initSys [Event.initialLoad emptyFilters])
          Event.fetchFailure).engine.hasMore = false) :=
  ⟨by decide,
    c7_amended_completion_invariant (run initSys [Event.initialLoad emptyFilters])
      c7Pending onePageResponse (by decide)⟩

/-- Event trace for the C8 counterexample: a full first page, then an
infinite-scroll page advance that loads page 2. -/
def c8Trace : List Event :=
  [Event.initialLoad emptyFilters, Event.fetchSuccess rickResponse,
   Event.scrollIntersect, Event.fetchSuccess page2Response]

/-- C8 counterexample: the page advance settles (currentPage becomes 2, both
requests were issued) yet no router navigation is ever performed — page changes
are not persisted, and no persisted representation ever received the page. -/
theorem c8_counterexample :
    (run initSys c8Trace).engine.currentPage = 2 ∧
    (run initSys c8Trace).persistLog = [] ∧
    (run initSys c8Trace).fetchLog =
      [apiFiltersOf emptyFilters 1, apiFiltersOf emptyFilters 2] := by
  decide

/-- C8 amended: only a settling filter change persists state, and what it
persists is the filter fields alone — empty fields omitted, the page never
included; page advances and fetch completions perform no navigation. -/
theorem c8_amended_persist_only_filters (s : SysState) (resp : ApiResponse)
    (f : FilterState) (hdist : s.lastSettled ≠ some s.engine.filtersForm) :
    (step s Event.scrollIntersect).persistLog = s.persistLog ∧
    (step s (Event.fetchSuccess resp)).persistLog = s.persistLog ∧
    (step s Event.fetchFailure).persistLog = s.persistLog ∧
    (step s Event.filterSettle).persistLog =
      s.persistLog ++ [updateUrlParams s.engine.filtersForm] ∧
    (updateUrlParams f).page = none ∧
    (updateUrlParams { f with name := "" }).name = none ∧
    (updateUrlParams { f with status := "" }).status = none ∧
    (updateUrlParams { f with species := "" }).species = none ∧
    (updateUrlParams { f with gender := "" }).gender = none ∧
    (updateUrlParams { f with createdStartDate := none }).createdStartDate = none ∧
    (updateUrlParams { f with createdEndDate := none }).createdEndDate = none ∧
    updateUrlParams emptyFilters = emptyUrlParams := by
  refine ⟨?_, ?_, ?_, ?_, rfl, by simp [updateUrlParams, strOrNone],
    by simp [updateUrlParams, strOrNone], by simp [updateUrlParams, strOrNone],
    by simp [updateUrlParams, strOrNone], rfl, rfl, by decide⟩
  · simp only [step, loadNextPage]
    split
    · rfl
    · simp only [loadCharacters]
      split <;> rfl
  · rcases hsp : s.pending with _ | pf <;> simp [step, hsp]
  · rcases hsp : s.pending with _ | pf <;> simp [step, hsp]
  · simp only [step, onFiltersSettled, if_neg hdist, loadCharacters]
    split <;> rfl

/-- Concrete instance of C8's amended statement from the fresh system state. -/
theorem c8_amended_witness :
    initSys.lastSettled ≠ some initSys.engine.filtersForm ∧
    ((step initSys Event.scrollIntersect).persistLog = initSys.persistLog ∧
      (step initSys (Event.fetchSuccess rickResponse)).persistLog =
        initSys.persistLog ∧
      (step initSys Event.fetchFailure).persistLog = initSys.persistLog ∧
      (step initSys Event.filterSettle).persistLog =
        initSys.persistLog ++ [updateUrlParams initSys.engine.filtersForm] ∧
      (updateUrlParams rickFilter).page = none ∧
      (updateUrlParams { rickFilter with name := "" }).name = none ∧
      (updateUrlParams { rickFilter with status := "" }).status = none ∧
      (updateUrlParams { rickFilter with species := "" }).species = none ∧
      (updateUrlParams { rickFilter with gender := "" }).gender = none ∧
      (updateUrlParams { rickFilter with createdStartDate := none }).createdStartDate =
        none ∧
      (updateUrlParams { rickFilter with createdEndDate := none }).createdEndDate =
        none ∧
      updateUrlParams emptyFilters = emptyUrlParams) :=
  ⟨by decide, c8_amended_persist_only_filters initSys rickResponse rickFilter (by decide)⟩

end RickMorty
